import Mathlib

set_option maxHeartbeats 1000000

namespace LabResults

/-- Concept datatype metadata (display name and HL7 abbreviation), read by the
component through optional chaining, so both fields are optional. -/
structure Datatype where
  display : Option String
  hl7Abbreviation : Option String
deriving DecidableEq

/-- A coded answer carried on a concept: its uuid and display label. -/
structure ConceptAnswer where
  uuid : String
  display : String
deriving DecidableEq

/-- Lab order concept descriptor, embedding the LabOrderConcept shape the component
reads. Numeric bounds (lowAbsolute, hiAbsolute) are modelled by their decimal
rendering as strings because the component only null-tests them and interpolates
them into template strings; units is optional and subject to JS truthiness. -/
inductive LabOrderConcept where
  | mk (uuid : String) (display : Option String) (datatype : Option Datatype)
      (lowAbsolute : Option String) (hiAbsolute : Option String) (units : Option String)
      (answers : Option (List ConceptAnswer)) (setMembers : List LabOrderConcept)

@[simp] def LabOrderConcept.uuid : LabOrderConcept → String
  | .mk u _ _ _ _ _ _ _ => u

@[simp] def LabOrderConcept.display : LabOrderConcept → Option String
  | .mk _ d _ _ _ _ _ _ => d

@[simp] def LabOrderConcept.datatype : LabOrderConcept → Option Datatype
  | .mk _ _ dt _ _ _ _ _ => dt

@[simp] def LabOrderConcept.lowAbsolute : LabOrderConcept → Option String
  | .mk _ _ _ lo _ _ _ _ => lo

@[simp] def LabOrderConcept.hiAbsolute : LabOrderConcept → Option String
  | .mk _ _ _ _ hi _ _ _ => hi

@[simp] def LabOrderConcept.units : LabOrderConcept → Option String
  | .mk _ _ _ _ _ un _ _ => un

@[simp] def LabOrderConcept.answers : LabOrderConcept → Option (List ConceptAnswer)
  | .mk _ _ _ _ _ _ ans _ => ans

@[simp] def LabOrderConcept.setMembers : LabOrderConcept → List LabOrderConcept
  | .mk _ _ _ _ _ _ _ sm => sm

/-- The concept reference carried on an observation (only its uuid is read). -/
structure ConceptRef where
  uuid : String
deriving DecidableEq

/-- A heterogeneous JS value held by an observation or a form field: either a
primitive (string) or a coded object carrying a uuid and a display label.
Property access value?.uuid on a primitive yields undefined, modelled by none. -/
inductive JsValue where
  | vStr (s : String)
  | vObj (uuid : String) (display : String)
deriving DecidableEq

/-- An observation: a recorded value for a concept, optionally carrying child
observations (group members) keyed by their concept. -/
inductive Observation where
  | mk (concept : ConceptRef) (value : Option JsValue) (groupMembers : Option (List Observation))

@[simp] def Observation.concept : Observation → ConceptRef
  | .mk c _ _ => c

@[simp] def Observation.value : Observation → Option JsValue
  | .mk _ v _ => v

@[simp] def Observation.groupMembers : Observation → Option (List Observation)
  | .mk _ _ gm => gm

/-- JS property access value?.uuid on a heterogeneous value: objects expose their
uuid, primitives give undefined. -/
def valueUuid : JsValue → Option String
  | .vStr _ => none
  | .vObj u _ => some u

/-- JS truthiness of an optional string: undefined and the empty string are falsy. -/
def jsTruthy : Option String → Bool
  | none => false
  | some s => s != ""

/-- Embeds the displayUnit local of formatLabRange: a leading space plus the unit
when the unit is truthy, the empty string otherwise. -/
def displayUnit (c : LabOrderConcept) : String :=
  if jsTruthy c.units then " " ++ c.units.getD "" else ""

/-- Embeds formatLabRange (named component, lines 34 to 54): the empty string for a
concept whose datatype hl7Abbreviation is not NM, otherwise the range suffix built
from the absolute bounds and the unit by template-string interpolation. -/
def formatLabRange (c : LabOrderConcept) : String :=
  if c.datatype.bind Datatype.hl7Abbreviation != some "NM" then ""
  else if c.lowAbsolute.isSome && c.hiAbsolute.isSome then
    " (" ++ c.lowAbsolute.getD "" ++ " - " ++ c.hiAbsolute.getD "" ++ " " ++ displayUnit c ++ ")"
  else if c.hiAbsolute.isSome then
    " (<= " ++ c.hiAbsolute.getD "" ++ " " ++ displayUnit c ++ ")"
  else if c.lowAbsolute.isSome then
    " (>= " ++ c.lowAbsolute.getD "" ++ " " ++ displayUnit c ++ ")"
  else if jsTruthy c.units then " (" ++ displayUnit c ++ ")"
  else ""

/-- Embeds the labelText template used by the text, numeric and coded widgets: the
display name followed by a space when the display name is truthy (empty otherwise),
then the reference-range suffix. -/
def labelText (c : LabOrderConcept) : String :=
  (if jsTruthy c.display then c.display.getD "" ++ " " else "") ++ formatLabRange c

/-- Modelled from the spec: the deployment configuration object, reduced to the part
the component consults, namely which concepts are designated as image-capturing.
The real ConfigObject lives in config-schema, outside this fragment. -/
structure ConfigObject where
  imageConceptUuids : List String
deriving DecidableEq

/-- Modelled from the spec: the classification collaborator predicate for free-text
concepts. The collaborator (lab-results.resource) is outside this fragment; the
source itself compares datatype display names (getSavedMemberValue tests the string
Coded), so the text predicate is modelled as the datatype display name Text. -/
def isText (c : LabOrderConcept) : Bool :=
  c.datatype.bind Datatype.display == some "Text"

/-- Modelled from the spec: the classification collaborator predicate for numeric
concepts, modelled as the datatype display name Numeric. -/
def isNumeric (c : LabOrderConcept) : Bool :=
  c.datatype.bind Datatype.display == some "Numeric"

/-- Modelled from the spec: the classification collaborator predicate for coded
concepts, modelled as the datatype display name Coded, matching the string the
source compares against in getSavedMemberValue. -/
def isCoded (c : LabOrderConcept) : Bool :=
  c.datatype.bind Datatype.display == some "Coded"

/-- Modelled from the spec: a panel concept is one carrying child concepts
(the spec data model attaches child concepts only when the concept is a panel). -/
def isPanel (c : LabOrderConcept) : Bool :=
  !c.setMembers.isEmpty

/-- Modelled from the spec: the image predicate holds when the deployment
configuration designates this concept as image-capturing. -/
def isImage (c : LabOrderConcept) (config : ConfigObject) : Bool :=
  config.imageConceptUuids.contains c.uuid

/-- Embeds getSavedMemberValue of the named component (lines 165 to 171): when the
asked uuid equals the top-level observation concept uuid, the top-level value is
returned directly; otherwise the group members are searched for a child with that
concept uuid, whose value uuid (for the Coded datatype) or raw value is returned. -/
def getSavedMemberValue (defaultValue : Option Observation) (conceptUuid : String)
    (dataType : Option String) : Option JsValue :=
  if some conceptUuid == defaultValue.map (fun d => d.concept.uuid) then
    defaultValue.bind Observation.value
  else if dataType == some "Coded" then
    ((((defaultValue.bind Observation.groupMembers).bind
        (fun gm => gm.find? (fun m => m.concept.uuid == conceptUuid))).bind
      Observation.value).bind valueUuid).map JsValue.vStr
  else
    ((defaultValue.bind Observation.groupMembers).bind
        (fun gm => gm.find? (fun m => m.concept.uuid == conceptUuid))).bind
      Observation.value

/-- Embeds getSavedMemberValue of src/unnamed/part_000 (lines 52 to 56): the same
group-member lookup, without the top-level uuid shortcut. -/
def getSavedMemberValueB (defaultValue : Option Observation) (conceptUuid : String)
    (dataType : Option String) : Option JsValue :=
  if dataType == some "Coded" then
    ((((defaultValue.bind Observation.groupMembers).bind
        (fun gm => gm.find? (fun m => m.concept.uuid == conceptUuid))).bind
      Observation.value).bind valueUuid).map JsValue.vStr
  else
    ((defaultValue.bind Observation.groupMembers).bind
        (fun gm => gm.find? (fun m => m.concept.uuid == conceptUuid))).bind
      Observation.value

/-- One option of a rendered select widget: its value attribute and visible text. -/
structure SelectOption where
  value : String
  text : String
deriving DecidableEq

/-- Embeds the option list of the guarded coded selects (named component lines 189
to 195, part_000 top level): the Choose an option entry, then the answers, which
render only when answers length is truthy. -/
def codedOptions (c : LabOrderConcept) : List SelectOption :=
  { value := "", text := "Choose an option" } ::
    (match c.answers with
     | some l => if l.length != 0 then l.map (fun a => { value := a.uuid, text := a.display }) else []
     | none => [])

/-- Embeds the option list of the unguarded member select of part_000 (lines 200 to
206): the Choose an option entry, then the answers mapped through optional chaining
with no length guard. -/
def codedOptionsUnguarded (c : LabOrderConcept) : List SelectOption :=
  { value := "", text := "Choose an option" } ::
    (match c.answers with
     | some l => l.map (fun a => { value := a.uuid, text := a.display })
     | none => [])

/-- A rendered terminal input widget: its controller field name, its label, and for
selects the pre-filled default value and the option list. -/
inductive Widget where
  | imageInput (name : String) (label : String)
  | textInput (name : String) (label : String)
  | numberInput (name : String) (label : String)
  | selectInput (name : String) (label : String) (defaultVal : Option JsValue)
      (options : List SelectOption)
deriving DecidableEq

/-- The label carried by a rendered widget. -/
def widgetLabel : Widget → String
  | .imageInput _ l => l
  | .textInput _ l => l
  | .numberInput _ l => l
  | .selectInput _ l _ _ => l

/-- Embeds ConceptField of the named component (lines 93 to 201): returns the first
matching terminal widget among image, text, numeric and coded, or nothing. -/
def ConceptField (config : ConfigObject) (c : LabOrderConcept)
    (defaultValue : Option Observation) : Option Widget :=
  if isImage c config then some (Widget.imageInput c.uuid (c.display.getD ""))
  else if isText c then some (Widget.textInput c.uuid (labelText c))
  else if isNumeric c then some (Widget.numberInput c.uuid (labelText c))
  else if isCoded c then
    some (Widget.selectInput c.uuid (labelText c)
      (getSavedMemberValue defaultValue c.uuid (c.datatype.bind Datatype.display))
      (codedOptions c))
  else none

/-- Embeds ResultFormField of the named component (lines 30 to 82): the concept
field of the concept itself, followed, when the concept is a panel, by one concept
field per member in member-list order. -/
def ResultFormField (config : ConfigObject) (c : LabOrderConcept)
    (defaultValue : Option Observation) : List Widget :=
  (ConceptField config c defaultValue).toList ++
    (if isPanel c then
      c.setMembers.flatMap (fun m => (ConceptField config m defaultValue).toList)
    else [])

/-- Embeds the per-member rendering of part_000 ResultFormField (lines 142 to 225):
independent, non-exclusive checks, in source order text, numeric, coded, image. -/
def memberFieldB (config : ConfigObject) (m : LabOrderConcept)
    (defaultValue : Option Observation) : List Widget :=
  (if isText m then [Widget.textInput m.uuid (labelText m)] else []) ++
  (if isNumeric m then [Widget.numberInput m.uuid (labelText m)] else []) ++
  (if isCoded m then
    [Widget.selectInput m.uuid (labelText m)
      (getSavedMemberValueB defaultValue m.uuid (m.datatype.bind Datatype.display))
      (codedOptionsUnguarded m)]
  else []) ++
  (if isImage m config then [Widget.imageInput m.uuid (m.display.getD "")] else [])

/-- Embeds ResultFormField of src/unnamed/part_000 (lines 23 to 228): independent
non-exclusive checks in source order text, numeric, coded, image, then the panel
members; the top-level coded default is the observation value uuid directly. -/
def ResultFormFieldB (config : ConfigObject) (c : LabOrderConcept)
    (defaultValue : Option Observation) : List Widget :=
  (if isText c then [Widget.textInput c.uuid (labelText c)] else []) ++
  (if isNumeric c then [Widget.numberInput c.uuid (labelText c)] else []) ++
  (if isCoded c then
    [Widget.selectInput c.uuid (labelText c)
      (((defaultValue.bind Observation.value).bind valueUuid).map JsValue.vStr)
      (codedOptions c)]
  else []) ++
  (if isImage c config then [Widget.imageInput c.uuid (c.display.getD "")] else []) ++
  (if isPanel c then c.setMembers.flatMap (fun m => memberFieldB config m defaultValue) else [])

/-- Follows the amended claim wording, not the source: the terminal-widget priority
chain image, then free text, then numeric, then coded, first match winning, with a
concept matching none rendering nothing. -/
def leafChain (config : ConfigObject) (c : LabOrderConcept)
    (defaultValue : Option Observation) : List Widget :=
  if isImage c config then [Widget.imageInput c.uuid (c.display.getD "")]
  else if isText c then [Widget.textInput c.uuid (labelText c)]
  else if isNumeric c then [Widget.numberInput c.uuid (labelText c)]
  else if isCoded c then
    [Widget.selectInput c.uuid (labelText c)
      (getSavedMemberValue defaultValue c.uuid (c.datatype.bind Datatype.display))
      (codedOptions c)]
  else []

/-- Follows the original claim wording, not the source: the priority chain image,
then free text, then numeric, then panel (recurse over members), then coded, first
match winning. Members are resolved by the same chain; by the claimed one-level
design their own members are never consulted, so one level is unrolled through the
leaf chain. -/
def claimChainRender (config : ConfigObject) (c : LabOrderConcept)
    (defaultValue : Option Observation) : List Widget :=
  if isImage c config then [Widget.imageInput c.uuid (c.display.getD "")]
  else if isText c then [Widget.textInput c.uuid (labelText c)]
  else if isNumeric c then [Widget.numberInput c.uuid (labelText c)]
  else if isPanel c then c.setMembers.flatMap (fun m => leafChain config m defaultValue)
  else if isCoded c then
    [Widget.selectInput c.uuid (labelText c)
      (getSavedMemberValue defaultValue c.uuid (c.datatype.bind Datatype.display))
      (codedOptions c)]
  else []

/-- How many of the four leaf classification predicates hold for a concept. -/
def leafMatchCount (config : ConfigObject) (c : LabOrderConcept) : Nat :=
  (if isText c then 1 else 0) + (if isNumeric c then 1 else 0) +
  (if isCoded c then 1 else 0) + (if isImage c config then 1 else 0)

/-- The same concept with its member list removed, used to state that the concept
field never consults a member concept of its input. -/
def stripMembers : LabOrderConcept → LabOrderConcept
  | .mk u d dt lo hi un ans _ => .mk u d dt lo hi un ans []

/-- ASCII-case-insensitive character equality, as the i flag of the regex applies
to the ASCII pattern letters p, d, f. -/
def charEqCI (a b : Char) : Bool :=
  a.toNat == b.toNat ||
  (65 ≤ a.toNat && a.toNat ≤ 90 && a.toNat + 32 == b.toNat) ||
  (65 ≤ b.toNat && b.toNat ≤ 90 && b.toNat + 32 == a.toNat)

/-- Does the first character list occur as a prefix of the second, comparing
characters ASCII-case-insensitively. -/
def charsPrefixCI : List Char → List Char → Bool
  | [], _ => true
  | _ :: _, [] => false
  | a :: as, b :: bs => charEqCI a b && charsPrefixCI as bs

/-- Does the needle occur anywhere inside the haystack, comparing characters
ASCII-case-insensitively. -/
def charsInfixCI (needle : List Char) : List Char → Bool
  | [] => charsPrefixCI needle []
  | b :: bs => charsPrefixCI needle (b :: bs) || charsInfixCI needle bs

/-- Embeds the regex test of the form /pdf/i on an extension: does the extension
contain the substring pdf, case-insensitively. -/
def pdfTest (ext : String) : Bool :=
  charsInfixCI ("pdf".toList) ext.toList

/-- The payload handed to the capture workflow: the filtered allow-list and the two
flags. -/
structure ModalPayload where
  allowedExtensions : List String
  collectDescription : Bool
  multipleFiles : Bool
deriving DecidableEq

/-- Embeds the payload construction of showImageCaptureModal (named component lines
213 to 233): the collaborator list filtered of pdf-like extensions, or the empty
list when the collaborator result is absent or not an array (modelled by none);
description collection and multi-file support are requested. -/
def showImageCaptureModal (allowedFileExtensions : Option (List String)) : ModalPayload :=
  { allowedExtensions :=
      match allowedFileExtensions with
      | some exts => exts.filter (fun ext => !pdfTest ext)
      | none => []
    collectDescription := true
    multipleFiles := true }

/-- An uploaded attachment: encoded content, file name, optional description. -/
structure UploadedFile where
  fileName : String
  base64Content : String
  fileDescription : Option String
deriving DecidableEq

/-- A transient notification: title, severity kind, low-contrast flag. -/
structure Snackbar where
  title : String
  kind : String
  isLowContrast : Bool
deriving DecidableEq

/-- The observable state of the image field: its current value and the
notifications shown so far. -/
structure ImageFieldState where
  value : Option UploadedFile
  snackbars : List Snackbar
deriving DecidableEq

/-- Embeds handleRemoveImage (named component lines 235 to 243): clear the value and
show one low-contrast success snackbar titled Image removed. -/
def handleRemoveImage (s : ImageFieldState) : ImageFieldState :=
  { value := none
    snackbars := s.snackbars ++
      [{ title := "Image removed", kind := "success", isLowContrast := true }] }

/-- The outcome of a capture-workflow callback: the resulting field value, how many
times the setter was invoked, and whether the workflow was closed. -/
structure SaveOutcome where
  value : Option UploadedFile
  setterCalls : Nat
  closed : Bool
deriving DecidableEq

/-- Embeds the saveFile callback passed to the capture workflow (named component
lines 215 to 222): write the file through the setter only when one was provided,
then close the workflow. -/
def saveFile (file : Option UploadedFile) (value : Option UploadedFile) : SaveOutcome :=
  match file with
  | some f => { value := some f, setterCalls := 1, closed := true }
  | none => { value := value, setterCalls := 0, closed := true }

/-- Embeds the closeModal callback (named component lines 223 to 225): close the
workflow without touching the value. -/
def closeModal (value : Option UploadedFile) : SaveOutcome :=
  { value := value, setterCalls := 0, closed := true }

/-- Fixture: a deployment configuration designating no image-capturing concepts. -/
def cfgEmpty : ConfigObject := { imageConceptUuids := [] }

/-- Fixture: a plain numeric member concept. -/
def mNumeric : LabOrderConcept :=
  .mk "m1" (some "Member") (some { display := some "Numeric", hl7Abbreviation := some "NM" })
    none none none none []

/-- Fixture: a concept that is both coded (datatype display Coded) and a panel
(a nonempty member list). -/
def cPanelCoded : LabOrderConcept :=
  .mk "panel-coded" (some "Blood panel") (some { display := some "Coded", hl7Abbreviation := none })
    none none none (some [{ uuid := "a1", display := "Positive" }]) [mNumeric]

/-- Fixture: a numeric concept with both bounds and a unit. -/
def cNumRange : LabOrderConcept :=
  .mk "num-1" (some "Hemoglobin") (some { display := some "Numeric", hl7Abbreviation := some "NM" })
    (some "3.5") (some "10") (some "mg/dL") none []

/-- Fixture: a numeric concept with only an upper bound of 200 and no unit. -/
def cUpperOnly : LabOrderConcept :=
  .mk "num-2" (some "Cholesterol") (some { display := some "Numeric", hl7Abbreviation := some "NM" })
    none (some "200") none none []

/-- Fixture: a free-text concept with a display name. -/
def cTextHb : LabOrderConcept :=
  .mk "hb" (some "Hemoglobin") (some { display := some "Text", hl7Abbreviation := some "ST" })
    none none none none []

/-- Fixture: a child observation recorded against the member concept m1. -/
def childObs : Observation :=
  .mk { uuid := "m1" } (some (.vObj "ans-1" "Positive")) none

/-- Fixture: a top-level observation against concept u1 with one group member. -/
def obsParent : Observation :=
  .mk { uuid := "u1" } (some (.vObj "v1" "Pos")) (some [childObs])

/-- Fixture: a member concept matching none of the classification predicates. -/
def mMisc : LabOrderConcept :=
  .mk "misc-m" (some "Misc member") (some { display := some "Misc", hl7Abbreviation := none })
    none none none none []

/-- Fixture: a panel whose only member matches no classification predicate, and
whose own datatype matches none either. -/
def pMisc : LabOrderConcept :=
  .mk "p1" (some "Misc panel") (some { display := some "Misc", hl7Abbreviation := none })
    none none none none [mMisc]

/-- Fixture: a plain coded concept with one answer. -/
def cCoded : LabOrderConcept :=
  .mk "c-coded" (some "Blood group") (some { display := some "Coded", hl7Abbreviation := none })
    none none none (some [{ uuid := "a1", display := "Positive" }]) []

/-- Fixture: an observation recorded directly against the coded concept c-coded. -/
def obsMatch : Observation :=
  .mk { uuid := "c-coded" } (some (.vObj "a1" "Positive")) none

/-- Fixture: an uploaded image file. -/
def fileA : UploadedFile :=
  { fileName := "img.png", base64Content := "data-content", fileDescription := none }

/-- Fixture: an image field currently populated with fileA and no notifications. -/
def statePopulated : ImageFieldState :=
  { value := some fileA, snackbars := [] }

/-- Helper: the concept field renders exactly the first match of the leaf chain
image, text, numeric, coded. -/
theorem conceptField_toList (config : ConfigObject) (c : LabOrderConcept)
    (defaultValue : Option Observation) :
    (ConceptField config c defaultValue).toList = leafChain config c defaultValue := by
  unfold ConceptField leafChain
  by_cases h1 : isImage c config = true <;> by_cases h2 : isText c = true <;>
    by_cases h3 : isNumeric c = true <;> by_cases h4 : isCoded c = true <;>
      simp [h1, h2, h3, h4]

/-- Claim C1 (amended): the terminal widget of a concept is chosen by the priority
chain image, then free text, then numeric, then coded, evaluated top to bottom with
first match winning, and a concept matching none renders nothing; panel handling is
not part of the chain: whenever the concept is a panel, the chain-chosen widgets of
its members are rendered in addition, after the concept's own widget. -/
theorem resolver_chain_additive_panel (config : ConfigObject) (c : LabOrderConcept)
    (defaultValue : Option Observation) :
    (ConceptField config c defaultValue).toList = leafChain config c defaultValue ∧
    ResultFormField config c defaultValue =
      leafChain config c defaultValue ++
        (if isPanel c then
          c.setMembers.flatMap (fun m => leafChain config m defaultValue)
        else []) := by
  refine ⟨conceptField_toList config c defaultValue, ?_⟩
  unfold ResultFormField
  rw [conceptField_toList]
  by_cases hp : isPanel c = true <;> simp [hp, conceptField_toList]

/-- Claim C1 counterexample: a concept that is both coded and a panel renders its
own coded widget in addition to its members' widgets, so panel does not preempt
coded as the claimed chain position demands: the claimed chain yields one widget,
the component renders two. -/
theorem resolver_chain_counterexample :
    claimChainRender cfgEmpty cPanelCoded none ≠ ResultFormField cfgEmpty cPanelCoded none ∧
    (claimChainRender cfgEmpty cPanelCoded none).length = 1 ∧
    (ResultFormField cfgEmpty cPanelCoded none).length = 2 := by decide

/-- Claim C2 (amended): for a non-numeric datatype code the suffix is empty; for the
numeric marker NM the suffix interpolates the bounds with a literal space before the
unit segment, and the unit segment itself carries a leading space when the unit is
truthy, so a present unit is preceded by two spaces; with no bounds but a truthy
unit the suffix is the parenthesised unit segment, and with neither it is empty. -/
theorem formatLabRange_cases (c : LabOrderConcept) :
    (c.datatype.bind Datatype.hl7Abbreviation ≠ some "NM" → formatLabRange c = "") ∧
    (c.datatype.bind Datatype.hl7Abbreviation = some "NM" →
      (∀ lo hi, c.lowAbsolute = some lo → c.hiAbsolute = some hi →
        formatLabRange c = " (" ++ lo ++ " - " ++ hi ++ " " ++ displayUnit c ++ ")") ∧
      (c.lowAbsolute = none → ∀ hi, c.hiAbsolute = some hi →
        formatLabRange c = " (<= " ++ hi ++ " " ++ displayUnit c ++ ")") ∧
      (∀ lo, c.lowAbsolute = some lo → c.hiAbsolute = none →
        formatLabRange c = " (>= " ++ lo ++ " " ++ displayUnit c ++ ")") ∧
      (c.lowAbsolute = none → c.hiAbsolute = none → jsTruthy c.units = true →
        formatLabRange c = " (" ++ displayUnit c ++ ")") ∧
      (c.lowAbsolute = none → c.hiAbsolute = none → jsTruthy c.units = false →
        formatLabRange c = "")) := by
  cases c with
  | mk u d dt lo hi un ans sm =>
    constructor
    · intro h
      simp only [LabOrderConcept.datatype] at h
      simp [formatLabRange, bne_iff_ne, h]
    · intro h
      simp only [LabOrderConcept.datatype] at h
      refine ⟨?_, ?_, ?_, ?_, ?_⟩
      · intro lo2 hi2 hlo hhi
        simp only [LabOrderConcept.lowAbsolute] at hlo
        simp only [LabOrderConcept.hiAbsolute] at hhi
        subst hlo
        subst hhi
        simp [formatLabRange, h]
      · intro hlo hi2 hhi
        simp only [LabOrderConcept.lowAbsolute] at hlo
        simp only [LabOrderConcept.hiAbsolute] at hhi
        subst hlo
        subst hhi
        simp [formatLabRange, h]
      · intro lo2 hlo hhi
        simp only [LabOrderConcept.lowAbsolute] at hlo
        simp only [LabOrderConcept.hiAbsolute] at hhi
        subst hlo
        subst hhi
        simp [formatLabRange, h]
      · intro hlo hhi hu
        simp only [LabOrderConcept.lowAbsolute] at hlo
        simp only [LabOrderConcept.hiAbsolute] at hhi
        simp only [LabOrderConcept.units] at hu
        subst hlo
        subst hhi
        simp [formatLabRange, h, hu]
      · intro hlo hhi hu
        simp only [LabOrderConcept.lowAbsolute] at hlo
        simp only [LabOrderConcept.hiAbsolute] at hhi
        simp only [LabOrderConcept.units] at hu
        subst hlo
        subst hhi
        simp [formatLabRange, h, hu]

/-- Claim C2 witness: the both-bounds case instantiated at the hemoglobin fixture. -/
theorem formatLabRange_cases_witness :
    cNumRange.datatype.bind Datatype.hl7Abbreviation = some "NM" ∧
    cNumRange.lowAbsolute = some "3.5" ∧ cNumRange.hiAbsolute = some "10" ∧
    formatLabRange cNumRange = " (" ++ "3.5" ++ " - " ++ "10" ++ " " ++ displayUnit cNumRange ++ ")" :=
  ⟨by decide, by decide, by decide,
    ((formatLabRange_cases cNumRange).2 (by decide)).1 "3.5" "10" (by decide) (by decide)⟩

/-- Claim C2 counterexample: for low 3.5, high 10, unit mg/dL the rendered suffix
carries two spaces before the unit, not one as the claim states. -/
theorem formatLabRange_example_counterexample :
    formatLabRange cNumRange = " (3.5 - 10  mg/dL)" ∧
    formatLabRange cNumRange ≠ " (3.5 - 10 mg/dL)" := by decide

/-- Claim C3: a numeric concept with only an upper absolute bound of 200 and no
unit yields the suffix with the empty unit segment retained before the closing
parenthesis. -/
theorem formatLabRange_upper_only_200 :
    formatLabRange cUpperOnly = " (<= 200 )" := by decide

/-- Claim C4 (amended): for text, numeric and coded widgets the label is the display
name followed by one space when the display name is truthy (empty otherwise),
concatenated with the reference-range suffix; the image widget label is the bare
display name with no suffix and no inserted space. -/
theorem label_composition (config : ConfigObject) (c : LabOrderConcept)
    (defaultValue : Option Observation) (w : Widget)
    (h : ConceptField config c defaultValue = some w) :
    (isImage c config = false →
      widgetLabel w =
        (if jsTruthy c.display then c.display.getD "" ++ " " else "") ++ formatLabRange c) ∧
    (isImage c config = true → widgetLabel w = c.display.getD "") := by
  unfold ConceptField at h
  by_cases h1 : isImage c config = true
  · rw [if_pos h1] at h
    obtain rfl := Option.some.inj h
    exact ⟨fun hi => absurd h1 (by simp [hi]), fun _ => rfl⟩
  · rw [if_neg h1] at h
    by_cases h2 : isText c = true
    · rw [if_pos h2] at h
      obtain rfl := Option.some.inj h
      exact ⟨fun _ => rfl, fun hi => absurd hi h1⟩
    · rw [if_neg h2] at h
      by_cases h3 : isNumeric c = true
      · rw [if_pos h3] at h
        obtain rfl := Option.some.inj h
        exact ⟨fun _ => rfl, fun hi => absurd hi h1⟩
      · rw [if_neg h3] at h
        by_cases h4 : isCoded c = true
        · rw [if_pos h4] at h
          obtain rfl := Option.some.inj h
          exact ⟨fun _ => rfl, fun hi => absurd hi h1⟩
        · rw [if_neg h4] at h
          exact absurd h (by simp)

/-- Claim C4 witness: the text fixture instantiates the non-image label shape. -/
theorem label_composition_witness :
    isImage cTextHb cfgEmpty = false ∧
    widgetLabel (Widget.textInput "hb" "Hemoglobin ") =
      (if jsTruthy cTextHb.display then cTextHb.display.getD "" ++ " " else "") ++
        formatLabRange cTextHb :=
  ⟨by decide,
    (label_composition cfgEmpty cTextHb none (Widget.textInput "hb" "Hemoglobin ")
      (by decide)).1 (by decide)⟩

/-- Claim C4 counterexample: the rendered text label carries a trailing space after
the display name before the (empty) suffix, so it is not the plain concatenation of
display name and suffix. -/
theorem label_composition_counterexample :
    ConceptField cfgEmpty cTextHb none = some (Widget.textInput "hb" "Hemoglobin ") ∧
    ("Hemoglobin " : String) ≠ cTextHb.display.getD "" ++ formatLabRange cTextHb := by decide

/-- Claim C5: the saved member value is the top-level observation value when the
member uuid matches the observation concept uuid; otherwise it is the matching
group member's value uuid (Coded datatype) or raw value, and none when no group
member matches. -/
theorem getSavedMemberValue_resolution (defaultValue : Option Observation)
    (conceptUuid : String) (dataType : Option String) :
    (defaultValue.map (fun d => d.concept.uuid) = some conceptUuid →
      getSavedMemberValue defaultValue conceptUuid dataType =
        defaultValue.bind Observation.value) ∧
    (defaultValue.map (fun d => d.concept.uuid) ≠ some conceptUuid →
      (∀ child,
        (defaultValue.bind Observation.groupMembers).bind
            (fun gm => gm.find? (fun m => m.concept.uuid == conceptUuid)) = some child →
          getSavedMemberValue defaultValue conceptUuid dataType =
            if dataType = some "Coded" then (child.value.bind valueUuid).map JsValue.vStr
            else child.value) ∧
      ((defaultValue.bind Observation.groupMembers).bind
          (fun gm => gm.find? (fun m => m.concept.uuid == conceptUuid)) = none →
        getSavedMemberValue defaultValue conceptUuid dataType = none)) := by
  constructor
  · intro h
    unfold getSavedMemberValue
    rw [if_pos (beq_iff_eq.mpr h.symm)]
  · intro hne
    have hcond : ¬((some conceptUuid == defaultValue.map fun d => d.concept.uuid) = true) := by
      simp only [beq_iff_eq]
      exact fun hh => hne hh.symm
    constructor
    · intro child hfind
      unfold getSavedMemberValue
      rw [if_neg hcond, hfind]
      by_cases hdt : dataType = some "Coded"
      · rw [if_pos (beq_iff_eq.mpr hdt), if_pos hdt]
        rfl
      · rw [if_neg (fun hh => hdt (beq_iff_eq.mp hh)), if_neg hdt]
        rfl
    · intro hnone
      unfold getSavedMemberValue
      rw [if_neg hcond, hnone]
      by_cases hdt : dataType = some "Coded"
      · rw [if_pos (beq_iff_eq.mpr hdt)]
        rfl
      · rw [if_neg (fun hh => hdt (beq_iff_eq.mp hh))]
        rfl

/-- Claim C5 witness: the top-level shortcut instantiated at the parent fixture. -/
theorem getSavedMemberValue_resolution_witness :
    (some obsParent).map (fun d => d.concept.uuid) = some "u1" ∧
    getSavedMemberValue (some obsParent) "u1" (some "Coded") =
      (some obsParent).bind Observation.value :=
  ⟨by decide,
    (getSavedMemberValue_resolution (some obsParent) "u1" (some "Coded")).1 (by decide)⟩

/-- Claim C6 (amended): a panel renders, after its own concept field, at most one
widget per member, in member-list order, and a member's own member list is never
consulted; a member matching no classification predicate contributes no widget. -/
theorem panel_members_single_level (config : ConfigObject) (c : LabOrderConcept)
    (defaultValue : Option Observation) (h : isPanel c = true) :
    ResultFormField config c defaultValue =
      (ConceptField config c defaultValue).toList ++
        c.setMembers.flatMap (fun m => (ConceptField config m defaultValue).toList) ∧
    (∀ m, ((ConceptField config m defaultValue).toList).length ≤ 1) ∧
    (∀ m, ConceptField config m defaultValue =
      ConceptField config (stripMembers m) defaultValue) := by
  refine ⟨by simp [ResultFormField, h], fun m => ?_, fun m => ?_⟩
  · cases hcf : ConceptField config m defaultValue <;> simp
  · cases m with
    | mk u d dt lo hi un ans sm => rfl

/-- Claim C6 witness: the panel decomposition instantiated at the misc panel. -/
theorem panel_members_single_level_witness :
    isPanel pMisc = true ∧
    ResultFormField cfgEmpty pMisc none =
      (ConceptField cfgEmpty pMisc none).toList ++
        pMisc.setMembers.flatMap (fun m => (ConceptField cfgEmpty m none).toList) :=
  ⟨by decide, (panel_members_single_level cfgEmpty pMisc none (by decide)).1⟩

/-- Claim C6 counterexample: a panel whose single member matches no classification
predicate renders zero widgets, refuting exactly one widget per member. -/
theorem panel_members_counterexample :
    isPanel pMisc = true ∧ pMisc.setMembers.length = 1 ∧
    ResultFormField cfgEmpty pMisc none = [] := by decide

/-- Claim C7: the allowed-extensions list handed to the capture workflow is the
collaborator list with every pdf-like extension (case-insensitive substring match)
removed and the rest kept in order; an absent or non-list collaborator result
yields the empty list, and the cited example filters as claimed. -/
theorem allowedExtensions_filtering :
    (∀ exts : List String,
      (showImageCaptureModal (some exts)).allowedExtensions =
        exts.filter (fun ext => !pdfTest ext)) ∧
    (showImageCaptureModal none).allowedExtensions = [] ∧
    (showImageCaptureModal (some ["jpg", "PDF", "png"])).allowedExtensions =
      ["jpg", "png"] :=
  ⟨fun _ => rfl, rfl, by decide⟩

/-- Claim C8: removing from a populated image field clears the value and appends
exactly one low-contrast success snackbar titled Image removed, and saving a file
from the empty state populates the field with that file. -/
theorem image_adapter_remove_and_save (s : ImageFieldState) (f g : UploadedFile)
    (_hpop : s.value = some f) :
    (handleRemoveImage s).value = none ∧
    (handleRemoveImage s).snackbars =
      s.snackbars ++ [{ title := "Image removed", kind := "success", isLowContrast := true }] ∧
    (saveFile (some g) none).value = some g :=
  ⟨rfl, rfl, rfl⟩

/-- Claim C8 witness: the populated fixture instantiates removal and save. -/
theorem image_adapter_remove_and_save_witness :
    statePopulated.value = some fileA ∧
    (handleRemoveImage statePopulated).value = none ∧
    (saveFile (some fileA) none).value = some fileA :=
  ⟨by decide,
    (image_adapter_remove_and_save statePopulated fileA fileA (by decide)).1,
    (image_adapter_remove_and_save statePopulated fileA fileA (by decide)).2.2⟩

/-- Claim C9: dismissing the capture workflow, either through the close callback or
through the save callback with no file, leaves the value unchanged with the setter
never called, and every callback path closes the workflow. -/
theorem image_adapter_dismiss_frame (value : Option UploadedFile) :
    saveFile none value = { value := value, setterCalls := 0, closed := true } ∧
    closeModal value = { value := value, setterCalls := 0, closed := true } ∧
    (∀ file, (saveFile file value).closed = true) :=
  ⟨rfl, rfl, fun file => by cases file <;> rfl⟩

/-- Helper: the named getSavedMemberValue yields none without an observation. -/
theorem getSavedMemberValue_none (conceptUuid : String) (dataType : Option String) :
    getSavedMemberValue none conceptUuid dataType = none := by
  unfold getSavedMemberValue
  by_cases hdt : dataType = some "Coded" <;> simp [hdt, beq_iff_eq]

/-- Helper: the part_000 getSavedMemberValue yields none without an observation. -/
theorem getSavedMemberValueB_none (conceptUuid : String) (dataType : Option String) :
    getSavedMemberValueB none conceptUuid dataType = none := by
  unfold getSavedMemberValueB
  by_cases hdt : dataType = some "Coded" <;> simp [hdt, beq_iff_eq]

/-- Helper: the guarded and unguarded option lists agree on every concept. -/
theorem codedOptions_eq_unguarded (c : LabOrderConcept) :
    codedOptions c = codedOptionsUnguarded c := by
  unfold codedOptions codedOptionsUnguarded
  cases h : c.answers with
  | none => rfl
  | some l =>
    cases l with
    | nil => rfl
    | cons a as => rfl

/-- Helper: without an observation, a member with at most one leaf classification
renders identically through the named concept field and the part_000 member row. -/
theorem memberField_eq (config : ConfigObject) (m : LabOrderConcept)
    (hm : leafMatchCount config m ≤ 1) :
    (ConceptField config m none).toList = memberFieldB config m none := by
  by_cases h1 : isImage m config = true <;> by_cases h2 : isText m = true <;>
    by_cases h3 : isNumeric m = true <;> by_cases h4 : isCoded m = true <;>
      first
        | (exfalso
           simp [leafMatchCount, h1, h2, h3, h4] at hm
           done)
        | simp [ConceptField, memberFieldB, h1, h2, h3, h4, getSavedMemberValue_none,
            getSavedMemberValueB_none, codedOptions_eq_unguarded]

/-- Helper: the member rows of the two implementations agree listwise without an
observation when every member has at most one leaf classification. -/
theorem membersFlatMap_eq (config : ConfigObject) (l : List LabOrderConcept)
    (hm : ∀ m ∈ l, leafMatchCount config m ≤ 1) :
    l.flatMap (fun m => (ConceptField config m none).toList) =
      l.flatMap (fun m => memberFieldB config m none) := by
  induction l with
  | nil => rfl
  | cons a as ih =>
    simp only [List.flatMap_cons]
    rw [memberField_eq config a (hm a (by simp)), ih (fun m hmem => hm m (by simp [hmem]))]

/-- Claim C10 (amended): when no prior observation is supplied and every involved
concept satisfies at most one of the four leaf classification predicates, the two
implementations render the same widget sequence with the same labels, options and
defaults; with an observation the coded pre-fill defaults differ (the named file
uses getSavedMemberValue with a top-level shortcut, part_000 uses the observation
value uuid at top level and a shortcut-less member lookup). -/
theorem render_equivalence_no_observation (config : ConfigObject) (c : LabOrderConcept)
    (hc : leafMatchCount config c ≤ 1)
    (hm : ∀ m ∈ c.setMembers, leafMatchCount config m ≤ 1) :
    ResultFormField config c none = ResultFormFieldB config c none := by
  unfold ResultFormField ResultFormFieldB
  rw [membersFlatMap_eq config c.setMembers hm]
  by_cases h1 : isImage c config = true <;> by_cases h2 : isText c = true <;>
    by_cases h3 : isNumeric c = true <;> by_cases h4 : isCoded c = true <;>
      first
        | (exfalso
           simp [leafMatchCount, h1, h2, h3, h4] at hc
           done)
        | simp [ConceptField, h1, h2, h3, h4, getSavedMemberValue_none]

/-- Claim C10 witness: the coded panel fixture instantiates the equivalence. -/
theorem render_equivalence_no_observation_witness :
    leafMatchCount cfgEmpty cPanelCoded ≤ 1 ∧
    (∀ m ∈ cPanelCoded.setMembers, leafMatchCount cfgEmpty m ≤ 1) ∧
    ResultFormField cfgEmpty cPanelCoded none = ResultFormFieldB cfgEmpty cPanelCoded none :=
  ⟨by decide, by decide,
    render_equivalence_no_observation cfgEmpty cPanelCoded (by decide) (by decide)⟩

/-- Claim C10 counterexample: with an observation recorded against the coded concept
itself, the named component pre-fills the whole value object through its top-level
shortcut while part_000 pre-fills the value uuid string, so the rendered widget
sequences differ. -/
theorem render_equivalence_counterexample :
    ResultFormField cfgEmpty cCoded (some obsMatch) ≠
      ResultFormFieldB cfgEmpty cCoded (some obsMatch) := by decide

end LabResults
